import Mathlib

/-!
# Voice-controlled map page (`voiceControl.js`)

A shallow embedding of the page script.  The script owns one piece of state,
the `markers` array; everything else it does is a call into the host (the
Leaflet map, the routing widget, axios, the speech and geolocation APIs).

* `Page` holds the `markers` array together with the part of the map that
  the calls of the script act on (the layers on the map, the routing controls added to
  it), an allocation counter standing for JavaScript object identity, and the
  log of host calls in the order the script makes them.
* A geocode request is asynchronous: its outcome (a response, or a rejection)
  is an input of the workflow, and the `.then` / `.catch` handlers are
  functions of that outcome.  An exception thrown inside a `.then` handler is
  passed to the `.catch` handler of the same chain, as promises do.
* Coordinates are values of an arbitrary number type `ν`; `parseFloat`,
  `isNaN` and `encodeURIComponent` are supplied by the host (`Host`).  Zoom
  levels and pixel offsets are integers.
* Leaflet makes a `LatLng` object of every coordinate pair it is given, and
  the constructor throws when a coordinate is `NaN` (`toLatLng`).  The throw
  happens before the call does anything, so a call that throws leaves no
  entry in the log.  Other host calls are taken to return normally.
-/

namespace VoiceControl

/-! ## Data model -/

/-- The five tile layers created at start-up (`osmLayer`, `satelliteLayer`, ...). -/
inductive TileLayer
  | osmLayer
  | satelliteLayer
  | terrainLayer
  | roadsLayer
  | hybridLayer
  deriving DecidableEq, Repr

/-- A marker object made by `L.marker([lat, lon])` with its bound popup text.
`id` is the identity of the object (every `L.marker` call makes a new one). -/
structure Marker (ν : Type) where
  id : Nat
  lat : ν
  lon : ν
  popupText : String
  deriving DecidableEq, Repr

/-- A layer that the script puts on the map. -/
inductive Layer (ν : Type)
  | tile (t : TileLayer)
  | marker (m : Marker ν)
  deriving DecidableEq, Repr

/-- Identity of a layer object: the map keeps its layers by object identity. -/
inductive LayerKey
  | tile (t : TileLayer)
  | object (id : Nat)
  deriving DecidableEq, Repr

/-- The identity of a layer. -/
def Layer.key {ν : Type} : Layer ν → LayerKey
  | .tile t => .tile t
  | .marker m => .object m.id

/-- The options object given to `L.Routing.control`. -/
structure RoutingControl (ν : Type) where
  waypoints : List (ν × ν)
  routeWhileDragging : Bool
  deriving DecidableEq, Repr

/-- What a `.catch` handler can receive: the rejection of a request, the
`TypeError` of reading a property of `null` / `undefined`, or the `Error` that
Leaflet throws for a coordinate pair holding `NaN` ("Invalid LatLng object"). -/
inductive JSError
  | rejected (reason : String)
  | typeError
  | invalidLatLng
  deriving DecidableEq, Repr

/-- One element of the geocode result array. -/
structure Place where
  display_name : String
  lat : String
  lon : String
  deriving DecidableEq, Repr

/-- An axios response; `data` is `none` when the body is absent
(`null` / `undefined`) and the result array otherwise. -/
structure Response where
  data : Option (List Place)
  deriving DecidableEq, Repr

/-- The outcome of `navigator.geolocation.getCurrentPosition`. -/
inductive GeoReply (ν : Type)
  | position (latitude longitude : ν)
  | failure
  deriving DecidableEq, Repr

/-- Calls the script makes into the host, as they appear in the log. -/
inductive Effect (ν : Type)
  | httpGet (url : String)
  | flyTo (lat lon : ν) (zoom : Int)
  | zoomIn
  | zoomOut
  | setZoom (zoom : Int)
  | panBy (dx dy : Int)
  | addLayer (l : Layer ν)
  | removeLayer (l : Layer ν)
  | openPopup (markerId : Nat)
  | addRouting (r : RoutingControl ν)
  | getCurrentPosition
  | alert (message : String)
  | speak (message : String)
  | consoleError (heading : String) (error : JSError)
  deriving DecidableEq, Repr

/-- Host functions on values: `parseFloat` and `encodeURIComponent`, which the script
calls, and `isNaN`, which Leaflet applies to the coordinates it is given. -/
structure Host (ν : Type) where
  parseFloat : String → ν
  isNaN : ν → Bool
  encodeURIComponent : String → String

/-- The state of the page. -/
structure Page (ν : Type) where
  markers : List (Marker ν)
  layers : List (Layer ν)
  routings : List (RoutingControl ν)
  nextId : Nat
  log : List (Effect ν)
  deriving DecidableEq, Repr

variable {ν : Type}

/-- The page after the start-up code: `osmLayer` is on the map (`.addTo(map)`),
`let markers = []`. -/
def initial : Page ν :=
  { markers := [], layers := [.tile .osmLayer], routings := [], nextId := 0, log := [] }

/-- The table `baseMaps` given to the layer switcher. -/
def baseMaps : List (String × TileLayer) :=
  [("Default", .osmLayer), ("Satellite", .satelliteLayer), ("Terrain", .terrainLayer),
   ("Roads", .roadsLayer), ("Hybrid", .hybridLayer)]

/-! ## Host calls -/

/-- Record one host call. -/
def Page.emit (s : Page ν) (e : Effect ν) : Page ν :=
  { s with log := s.log ++ [e] }

/-- The call `map.addLayer(l)` (also `l.addTo(map)`): a layer already on the map is
not added again. -/
def mapAddLayer (l : Layer ν) (s : Page ν) : Page ν :=
  let s := s.emit (.addLayer l)
  if s.layers.any (fun x => decide (x.key = l.key)) then s
  else { s with layers := s.layers ++ [l] }

/-- The call `map.removeLayer(l)`: the layer object `l` leaves the map. -/
def mapRemoveLayer (l : Layer ν) (s : Page ν) : Page ν :=
  let s := s.emit (.removeLayer l)
  { s with layers := s.layers.filter (fun x => decide (x.key ≠ l.key)) }

/-- The call `L.latLng([lat, lon])`, which `map.flyTo` also makes on its first argument:
the `LatLng` constructor throws when `lat` or `lon` is `NaN`. -/
def toLatLng (host : Host ν) (lat lon : ν) : Except JSError (ν × ν) :=
  if host.isNaN lat || host.isNaN lon then .error .invalidLatLng else .ok (lat, lon)

/-- The call `map.flyTo([lat, lon], zoom)`; it throws on a `NaN` coordinate. -/
def mapFlyTo (host : Host ν) (lat lon : ν) (zoom : Int) (s : Page ν) : Except JSError (Page ν) :=
  match toLatLng host lat lon with
  | .error e => .error e
  | .ok _ => .ok (s.emit (.flyTo lat lon zoom))

/-- The call `alert(message)`. -/
def alert (message : String) (s : Page ν) : Page ν :=
  s.emit (.alert message)

/-- The function `speak`: one utterance handed to `window.speechSynthesis`. -/
def speak (message : String) (s : Page ν) : Page ν :=
  s.emit (.speak message)

/-! ## `addMarker` -/

/-- The function `addMarker(lat, lon, popupText)`: make a marker, add it to the map, bind
and open its popup, push it on `markers`; when `markers.length > 2`, shift the
oldest off the array and remove it from the map.  Both callers in the script call
`addMarker` right after a `map.flyTo` that has accepted the same coordinates, so the
`LatLng` check of `L.marker` passes there. -/
def addMarker (lat lon : ν) (popupText : String) (s : Page ν) : Page ν :=
  let marker : Marker ν := { id := s.nextId, lat := lat, lon := lon, popupText := popupText }
  let s := (mapAddLayer (.marker marker) { s with nextId := s.nextId + 1 }).emit
    (.openPopup marker.id)
  let s := { s with markers := s.markers ++ [marker] }
  if s.markers.length > 2 then
    match s.markers with
    | [] => s
    | oldest :: rest => mapRemoveLayer (.marker oldest) { s with markers := rest }
  else s

/-- The markers among the layers on the map, in the order they were added. -/
def markersOnMap (s : Page ν) : List (Marker ν) :=
  s.layers.filterMap (fun l => match l with
    | .marker m => some m
    | .tile _ => none)

/-- A run of `addMarker` calls, one per argument triple, in order. -/
def addMarkers (calls : List (ν × ν × String)) (s : Page ν) : Page ν :=
  calls.foldl (fun acc c => addMarker c.1 c.2.1 c.2.2 acc) s

/-- The marker objects a run of `addMarker` calls creates when the allocation
counter starts at `n`, in creation order. -/
def createdFrom (n : Nat) : List (ν × ν × String) → List (Marker ν)
  | [] => []
  | c :: cs => { id := n, lat := c.1, lon := c.2.1, popupText := c.2.2 } :: createdFrom (n + 1) cs

/-- The last `k` elements of a list, in order. -/
def lastN {α : Type} (k : Nat) (xs : List α) : List α :=
  xs.drop (xs.length - k)

/-- The marker object that `addMarker` makes in state `s`. -/
def newMarker (lat lon : ν) (popupText : String) (s : Page ν) : Marker ν :=
  { id := s.nextId, lat := lat, lon := lon, popupText := popupText }

/-- The invariant of the marker list: the markers on the map are the `markers` array, at
most two, with identities increasing and below the allocation counter. -/
def MarkersInv (s : Page ν) : Prop :=
  markersOnMap s = s.markers ∧ s.markers.length ≤ 2 ∧
    s.markers.Pairwise (fun a b => a.id < b.id) ∧ ∀ m ∈ s.markers, m.id < s.nextId

/-! ## Geocode workflows -/

/-- The request URL built from the query text. -/
def geocodeUrl (host : Host ν) (query : String) : String :=
  "https://nominatim.openstreetmap.org/search?format=json&q=" ++ host.encodeURIComponent query

/-- The guard `response.data && response.data.length > 0`. -/
def hasResults (response : Response) : Bool :=
  match response.data with
  | none => false
  | some d => decide (d.length > 0)

/-- The read `response.data[0]`; `none` stands for `undefined`. -/
def firstResult (response : Response) : Option Place :=
  match response.data with
  | none => none
  | some d => d.head?

/-- The `.then` handler of `navigateToLocation`.  Reading a field of an `undefined`
place would throw a `TypeError`; `map.flyTo` throws when a parsed coordinate is `NaN`, and
then neither `addMarker` nor `speak` is reached. -/
def navigateThen (host : Host ν) (response : Response) (s : Page ν) : Except JSError (Page ν) :=
  if hasResults response then
    match firstResult response with
    | none => .error .typeError
    | some place =>
      let lat := host.parseFloat place.lat
      let lon := host.parseFloat place.lon
      match mapFlyTo host lat lon 10 s with
      | .error e => .error e
      | .ok flown =>
        .ok (speak ("Navigating to " ++ place.display_name)
          (addMarker lat lon ("<b>" ++ place.display_name ++ "</b>") flown))
  else
    .ok (speak "Location not found!" (alert "Location not found!" s))

/-- The `.catch` handler of `navigateToLocation`. -/
def navigateCatch (error : JSError) (s : Page ν) : Page ν :=
  speak "Error fetching location. Please try again."
    (alert "Error fetching location. Please try again."
      (s.emit (.consoleError "Error fetching location:" error)))

/-- The function `navigateToLocation(location)`, with the outcome `reply` of its request.
A throw in the `.then` handler happens before the handler has changed anything, so the
`.catch` handler runs on the page as it was when the handler started. -/
def navigateToLocation (host : Host ν) (location : String) (reply : Except JSError Response)
    (s : Page ν) : Page ν :=
  let s := s.emit (.httpGet (geocodeUrl host location))
  match reply with
  | .error e => navigateCatch e s
  | .ok response =>
    match navigateThen host response s with
    | .ok done => done
    | .error e => navigateCatch e s

/-- The combinator `Promise.all` on the two requests: it resolves with both responses, or
rejects with the reason of the request that is rejected first. -/
def promiseAll (replyFrom replyTo : Except JSError Response) (fromSettlesFirst : Bool) :
    Except JSError (Response × Response) :=
  match replyFrom, replyTo with
  | .ok a, .ok b => .ok (a, b)
  | .error e, .ok _ => .error e
  | .ok _, .error e => .error e
  | .error e₁, .error e₂ => .error (if fromSettlesFirst then e₁ else e₂)

/-- The read `response.data.length`: a `TypeError` when `data` is absent. -/
def dataLength (response : Response) : Except JSError Nat :=
  match response.data with
  | none => .error .typeError
  | some d => .ok d.length

/-- The guard `responseFrom.data.length > 0 && responseTo.data.length > 0`; the right
operand is evaluated only when the left one is true. -/
def bothHaveResults (responseFrom responseTo : Response) : Except JSError Bool :=
  match dataLength responseFrom with
  | .error e => .error e
  | .ok lengthFrom =>
    if lengthFrom > 0 then
      match dataLength responseTo with
      | .error e => .error e
      | .ok lengthTo => .ok (decide (lengthTo > 0))
    else .ok false

/-- The call `L.Routing.control(options).addTo(map)`. -/
def addRoutingControl (r : RoutingControl ν) (s : Page ν) : Page ν :=
  { s.emit (.addRouting r) with routings := s.routings ++ [r] }

/-- The `.then` handler of `findRoute`.  The two `L.latLng` calls are evaluated, `from` first,
before `L.Routing.control` is called; either one throws on a `NaN` coordinate. -/
def findRouteThen (host : Host ν) (responses : Response × Response) (s : Page ν) :
    Except JSError (Page ν) :=
  let responseFrom := responses.1
  let responseTo := responses.2
  match bothHaveResults responseFrom responseTo with
  | .error e => .error e
  | .ok true =>
    match firstResult responseFrom, firstResult responseTo with
    | some fromPlace, some toPlace =>
      let fromLatLng := (host.parseFloat fromPlace.lat, host.parseFloat fromPlace.lon)
      let toLatLng := (host.parseFloat toPlace.lat, host.parseFloat toPlace.lon)
      match VoiceControl.toLatLng host fromLatLng.1 fromLatLng.2 with
      | .error e => .error e
      | .ok fromPoint =>
        match VoiceControl.toLatLng host toLatLng.1 toLatLng.2 with
        | .error e => .error e
        | .ok toPoint =>
          .ok (speak
            ("Finding route from " ++ fromPlace.display_name ++ " to " ++ toPlace.display_name)
            (addRoutingControl { waypoints := [fromPoint, toPoint], routeWhileDragging := true }
              s))
    | _, _ => .error .typeError
  | .ok false =>
    .ok (speak "One or both locations not found!" (alert "One or both locations not found!" s))

/-- The `.catch` handler of `findRoute`. -/
def findRouteCatch (error : JSError) (s : Page ν) : Page ν :=
  speak "Error fetching locations. Please try again."
    (alert "Error fetching locations. Please try again."
      (s.emit (.consoleError "Error fetching locations:" error)))

/-- The function `findRoute(from, to)`, with the outcomes of its two requests. -/
def findRoute (host : Host ν) (source target : String) (replyFrom replyTo : Except JSError Response)
    (fromSettlesFirst : Bool) (s : Page ν) : Page ν :=
  let s := (s.emit (.httpGet (geocodeUrl host source))).emit (.httpGet (geocodeUrl host target))
  match promiseAll replyFrom replyTo fromSettlesFirst with
  | .error e => findRouteCatch e s
  | .ok responses =>
    match findRouteThen host responses s with
    | .ok done => done
    | .error e => findRouteCatch e s

/-! ## Locate button -/

/-- The click handler of `locateButton`.  `geolocation` is `none` when
`navigator.geolocation` is missing, and otherwise the outcome of the position request.
The success callback has no handler around it: were `map.flyTo` to throw, the rest of the
callback would not run. -/
def locateClick (host : Host ν) (geolocation : Option (GeoReply ν)) (s : Page ν) : Page ν :=
  match geolocation with
  | some reply =>
    let s := s.emit .getCurrentPosition
    match reply with
    | .position lat lon =>
      match mapFlyTo host lat lon 12 s with
      | .error _ => s
      | .ok flown => speak "Showing your current location" (addMarker lat lon "You are here" flown)
    | .failure =>
      speak "Unable to retrieve your location" (alert "Unable to retrieve your location" s)
  | none =>
    speak "Geolocation is not supported by your browser"
      (alert "Geolocation is not supported by your browser" s)

/-! ## Voice commands -/

/-- The entries of `commands` whose phrase has no wildcard.  A handler gets the value
`zoom` that `map.getZoom()` returns.  The three wildcard entries (`go to`, `navigate to`,
`find route from .. to ..`) call `navigateToLocation` and `findRoute`. -/
def commands (phrase : String) : Option (Int → Page ν → Page ν) :=
  match phrase with
  | "zoom in" => some (fun _ s => speak "Zooming in" (s.emit .zoomIn))
  | "zoom out" => some (fun _ s => speak "Zooming out" (s.emit .zoomOut))
  | "extra zoom in" => some (fun zoom s => speak "Extra zooming in" (s.emit (.setZoom (zoom + 2))))
  | "extra zoom out" => some (fun zoom s => speak "Extra zooming out" (s.emit (.setZoom (zoom - 2))))
  | "pan left" => some (fun _ s => speak "Panning left" (s.emit (.panBy (-100) 0)))
  | "pan right" => some (fun _ s => speak "Panning right" (s.emit (.panBy 100 0)))
  | "satellite view" =>
    some (fun _ s => speak "Switching to satellite view" (mapAddLayer (.tile .satelliteLayer) s))
  | "terrain view" =>
    some (fun _ s => speak "Switching to terrain view" (mapAddLayer (.tile .terrainLayer) s))
  | "default view" =>
    some (fun _ s => speak "Switching to default view" (mapAddLayer (.tile .osmLayer) s))
  | "roads view" =>
    some (fun _ s => speak "Switching to roads view" (mapAddLayer (.tile .roadsLayer) s))
  | "hybrid view" =>
    some (fun _ s => speak "Switching to hybrid view" (mapAddLayer (.tile .hybridLayer) s))
  | _ => none

/-- Run the handler of a fixed phrase; a phrase not in the table leaves the page as it is. -/
def runCommand (phrase : String) (zoom : Int) (s : Page ν) : Page ν :=
  match commands phrase with
  | some handler => handler zoom s
  | none => s

/-! ## Reading the log -/

/-- The utterances in a log, in order. -/
def spoken (log : List (Effect ν)) : List String :=
  log.filterMap (fun e => match e with
    | .speak m => some m
    | _ => none)

/-- The alert messages in a log, in order. -/
def alerts (log : List (Effect ν)) : List String :=
  log.filterMap (fun e => match e with
    | .alert m => some m
    | _ => none)

/-- The `removeLayer` call of `addMarker`, made when the array already holds two markers or
more: the head of the array leaves the map. -/
def evicted (markers : List (Marker ν)) : List (Effect ν) :=
  match markers with
  | oldest :: _ :: _ => [Effect.removeLayer (Layer.marker oldest)]
  | _ => []

/-- The layers of the `addLayer` calls in a log, in order. -/
def addedLayers (log : List (Effect ν)) : List (Layer ν) :=
  log.filterMap (fun e => match e with
    | .addLayer l => some l
    | _ => none)

/-- No map mutation between two states: the `markers` array, the layers on the map, the
routing controls and the allocation counter are the same. -/
def MapUntouched (before after : Page ν) : Prop :=
  after.markers = before.markers ∧ after.layers = before.layers ∧
    after.routings = before.routings ∧ after.nextId = before.nextId

/-- A lookup with a result: the request resolves with a non-empty result array. -/
def found (reply : Except JSError Response) : Bool :=
  match reply with
  | .ok ⟨some (_ :: _)⟩ => true
  | _ => false

/-- The success outcome of a lookup: the request resolves with a non-empty result array
whose first element has a latitude and a longitude that parse to numbers. -/
def succeeds (host : Host ν) (reply : Except JSError Response) : Bool :=
  match reply with
  | .ok ⟨some (place :: _)⟩ =>
    !host.isNaN (host.parseFloat place.lat) && !host.isNaN (host.parseFloat place.lon)
  | _ => false

/-- What a view command does with the tile layer `t`: one `addLayer t` call and one
utterance `message`, after which `t` is on the map, every layer that was on the map is still
on it, and the marker list, the routing controls and the allocation counter are as before. -/
def AddsTile (t : TileLayer) (message : String) (before after : Page ν) : Prop :=
  after.log = before.log ++ [Effect.addLayer (Layer.tile t), Effect.speak message] ∧
    Layer.tile t ∈ after.layers ∧ (∀ l ∈ before.layers, l ∈ after.layers) ∧
    after.markers = before.markers ∧ after.routings = before.routings ∧
    after.nextId = before.nextId

/-- A host for the scenarios.  Numbers are `Option ℚ` with `none` for `NaN`; `parseFloat`
knows the coordinate strings of the scenarios and gives `NaN` on the other strings used
there ("abc"); the percent-encoding leaves plain words as they are. -/
def sampleHost : Host (Option ℚ) :=
  { parseFloat := fun s =>
      if s = "48.8566" then some 48.8566 else if s = "2.3522" then some 2.3522
      else if s = "28.6139" then some 28.6139 else if s = "77.2090" then some 77.2090
      else none
    isNaN := fun x => x.isNone
    encodeURIComponent := fun s => s }

/-- The geocode result of the Paris scenario. -/
def paris : Place :=
  { display_name := "Paris, France", lat := "48.8566", lon := "2.3522" }

/-- A geocode result for Delhi. -/
def delhi : Place :=
  { display_name := "Delhi, India", lat := "28.6139", lon := "77.2090" }

/-- A geocode result whose latitude does not parse to a number. -/
def garbled : Place :=
  { display_name := "Paris, France", lat := "abc", lon := "2.3522" }

/-! ## Lemmas on `addMarker` -/

theorem lastN_cons {α : Type} (k : Nat) (a : α) (zs : List α) (h : k ≤ zs.length) :
    lastN k (a :: zs) = lastN k zs := by
  unfold lastN
  have : (a :: zs).length - k = (zs.length - k) + 1 := by simp; omega
  rw [this, List.drop_succ_cons]

theorem lastN_of_length_le {α : Type} (k : Nat) (zs : List α) (h : zs.length ≤ k) :
    lastN k zs = zs := by
  unfold lastN
  have : zs.length - k = 0 := by omega
  rw [this, List.drop_zero]

theorem key_marker (m : Marker ν) : (Layer.marker m).key = LayerKey.object m.id := rfl

theorem markers_filterMap_remove (ls : List (Layer ν)) (k : Nat) :
    (ls.filter (fun x => !decide (x.key = LayerKey.object k))).filterMap (fun l => match l with
      | .marker m => some m
      | .tile _ => none) =
    (ls.filterMap (fun l => match l with
      | .marker m => some m
      | .tile _ => none)).filter (fun m => !decide (m.id = k)) := by
  induction ls with
  | nil => rfl
  | cons l ls ih =>
    cases l with
    | tile t => simpa [List.filter_cons, List.filterMap_cons, Layer.key] using ih
    | marker m =>
      by_cases h : m.id = k
      · simpa [List.filter_cons, List.filterMap_cons, Layer.key, h] using ih
      · simpa [List.filter_cons, List.filterMap_cons, Layer.key, h] using ih

theorem not_on_map_of_fresh (s : Page ν) (h : ∀ m ∈ markersOnMap s, m.id < s.nextId) (m : Marker ν)
    (hm : m.id = s.nextId) :
    s.layers.any (fun x => decide (x.key = (Layer.marker m).key)) = false := by
  rw [Bool.eq_false_iff]
  intro hany
  rw [List.any_eq_true] at hany
  obtain ⟨x, hx, hk⟩ := hany
  cases x with
  | tile t => simp [Layer.key] at hk
  | marker m' =>
    have hid : m'.id = m.id := by simpa [Layer.key] using hk
    have : m' ∈ markersOnMap s := by
      unfold markersOnMap
      rw [List.mem_filterMap]
      exact ⟨_, hx, rfl⟩
    have := h m' this
    omega

/-- One `addMarker` call under the invariant: the counter advances by one, the list gains the
new marker and loses its head if that makes three, and the invariant is kept. -/
theorem addMarker_step (lat lon : ν) (popupText : String) (s : Page ν) (h : MarkersInv s) :
    (addMarker lat lon popupText s).nextId = s.nextId + 1 ∧
    (addMarker lat lon popupText s).markers =
      lastN 2 (s.markers ++ [newMarker lat lon popupText s]) ∧
    MarkersInv (addMarker lat lon popupText s) := by
  obtain ⟨hmap, hlen, hpair, hlt⟩ := h
  have hfresh := not_on_map_of_fresh s (by rw [hmap]; exact hlt) (newMarker lat lon popupText s) rfl
  have hlayers : markersOnMap s = s.markers := hmap
  unfold markersOnMap at hmap
  rcases hs : s.markers with _ | ⟨a, _ | ⟨b, _ | ⟨c, r⟩⟩⟩
  · rw [hs] at hmap
    simp only [addMarker, mapAddLayer, mapRemoveLayer, Page.emit, newMarker] at hfresh ⊢
    simp only [hfresh]
    simp [hs, lastN, MarkersInv, markersOnMap, hmap]
  · rw [hs] at hmap hlt
    simp only [addMarker, mapAddLayer, mapRemoveLayer, Page.emit, newMarker] at hfresh ⊢
    simp only [hfresh]
    simp [hs, lastN, MarkersInv, markersOnMap, hmap]
    have := hlt a (by simp)
    omega
  · rw [hs] at hmap hlt hpair
    have ha := hlt a (by simp)
    have hb := hlt b (by simp)
    have hab : a.id < b.id := by simpa using hpair
    simp only [addMarker, mapAddLayer, mapRemoveLayer, Page.emit, newMarker] at hfresh ⊢
    simp only [hfresh]
    have hne : ¬ b.id = a.id := by omega
    have hne2 : ¬ s.nextId = a.id := by omega
    simp [hs, lastN, MarkersInv, markersOnMap, key_marker, markers_filterMap_remove, hmap,
      List.filter_cons, hne, hne2]
    omega
  · rw [hs] at hlen
    simp at hlen

theorem lastN_lastN_append {α : Type} (k : Nat) (xs ys : List α) :
    lastN k (lastN k xs ++ ys) = lastN k (xs ++ ys) := by
  induction xs with
  | nil => simp [lastN]
  | cons a xs ih =>
    by_cases h : k ≤ xs.length
    · rw [lastN_cons k a xs h, ih, List.cons_append, lastN_cons k a (xs ++ ys) (by simp; omega)]
    · rw [lastN_of_length_le k (a :: xs) (by simp; omega)]

theorem createdFrom_length (n : Nat) (calls : List (ν × ν × String)) :
    (createdFrom n calls).length = calls.length := by
  induction calls generalizing n with
  | nil => rfl
  | cons c cs ih => simp [createdFrom, ih]

/-- A run of `addMarker` calls under the invariant leaves the last two of the markers that
were in the list or created by the run. -/
theorem addMarkers_run (calls : List (ν × ν × String)) (s : Page ν) (h : MarkersInv s) :
    (addMarkers calls s).markers = lastN 2 (s.markers ++ createdFrom s.nextId calls) ∧
    MarkersInv (addMarkers calls s) := by
  induction calls generalizing s with
  | nil =>
    refine ⟨?_, h⟩
    simp only [addMarkers, List.foldl_nil, createdFrom, List.append_nil]
    exact (lastN_of_length_le 2 s.markers h.2.1).symm
  | cons c cs ih =>
    obtain ⟨hid, hmk, hinv⟩ := addMarker_step c.1 c.2.1 c.2.2 s h
    have hrun := ih (addMarker c.1 c.2.1 c.2.2 s) hinv
    have hfold : addMarkers (c :: cs) s = addMarkers cs (addMarker c.1 c.2.1 c.2.2 s) := rfl
    rw [hfold]
    refine ⟨?_, hrun.2⟩
    rw [hrun.1, hmk, hid, lastN_lastN_append]
    simp [createdFrom, newMarker]

/-- Claim C1. Starting from an empty marker list (and no marker on the map), after any run of
`addMarker` calls the `markers` array holds exactly the last `min N 2` of the markers the
run created, in creation order; the markers on the map are the contents of the array; and
their number is `min N 2`. -/
theorem addMarkers_keeps_last_two (calls : List (ν × ν × String)) (s : Page ν)
    (hempty : s.markers = []) (hmap : markersOnMap s = []) :
    (addMarkers calls s).markers = lastN (min calls.length 2) (createdFrom s.nextId calls) ∧
    markersOnMap (addMarkers calls s) = (addMarkers calls s).markers ∧
    (markersOnMap (addMarkers calls s)).length = min calls.length 2 := by
  have hinv : MarkersInv s := by
    refine ⟨by rw [hmap, hempty], by simp [hempty], by simp [hempty], by simp [hempty]⟩
  obtain ⟨hrun, hmapInv, -⟩ := addMarkers_run calls s hinv
  have hlast : lastN 2 (createdFrom s.nextId calls) =
      lastN (min calls.length 2) (createdFrom s.nextId calls) := by
    unfold lastN
    rw [createdFrom_length]
    congr 1
    omega
  have hmk : (addMarkers calls s).markers =
      lastN (min calls.length 2) (createdFrom s.nextId calls) := by
    rw [hrun, hempty, List.nil_append, hlast]
  refine ⟨hmk, hmapInv, ?_⟩
  rw [hmapInv, hmk]
  unfold lastN
  rw [List.length_drop, createdFrom_length]
  omega

/-- The scenario of C1: three `addMarker` calls on the fresh page.  The third call takes the
first marker off the map and two markers are left, the second and the third. -/
theorem addMarkers_keeps_last_two_witness :
    (initial : Page ℚ).markers = [] ∧ markersOnMap (initial : Page ℚ) = [] ∧
    markersOnMap (addMarkers [(1, 2, "a"), (3, 4, "b"), (5, 6, "c")] (initial : Page ℚ)) =
      [{ id := 1, lat := 3, lon := 4, popupText := "b" },
       { id := 2, lat := 5, lon := 6, popupText := "c" }] ∧
    (markersOnMap (addMarkers [(1, 2, "a"), (3, 4, "b"), (5, 6, "c")] (initial : Page ℚ))).length
      = min 3 2 := by
  have h := addMarkers_keeps_last_two [(1, 2, "a"), (3, 4, "b"), (5, 6, "c")] (initial : Page ℚ)
    rfl rfl
  refine ⟨rfl, rfl, ?_, h.2.2⟩
  rw [h.2.1, h.1]
  rfl


/-! ## Lemmas on the log -/

theorem addMarker_log (lat lon : ν) (popupText : String) (s : Page ν) :
    (addMarker lat lon popupText s).log =
      s.log ++ [Effect.addLayer (Layer.marker (newMarker lat lon popupText s)),
        Effect.openPopup s.nextId] ++ evicted s.markers := by
  unfold addMarker mapAddLayer
  simp only [Page.emit]
  split <;> rcases hs : s.markers with _ | ⟨a, _ | ⟨b, r⟩⟩ <;>
    simp [hs, evicted, mapRemoveLayer, Page.emit, newMarker]

theorem addMarker_fields (lat lon : ν) (popupText : String) (s : Page ν) :
    (addMarker lat lon popupText s).nextId = s.nextId + 1 ∧
    (addMarker lat lon popupText s).routings = s.routings ∧
    (addMarker lat lon popupText s).markers =
      (if 2 ≤ s.markers.length then s.markers.tail else s.markers) ++
        [newMarker lat lon popupText s] := by
  unfold addMarker mapAddLayer
  simp only [Page.emit]
  split <;> rcases hs : s.markers with _ | ⟨a, _ | ⟨b, r⟩⟩ <;>
    simp [hs, mapRemoveLayer, Page.emit, newMarker]

theorem spoken_append (a b : List (Effect ν)) : spoken (a ++ b) = spoken a ++ spoken b := by
  simp [spoken, List.filterMap_append]

theorem alerts_append (a b : List (Effect ν)) : alerts (a ++ b) = alerts a ++ alerts b := by
  simp [alerts, List.filterMap_append]

theorem addedLayers_append (a b : List (Effect ν)) :
    addedLayers (a ++ b) = addedLayers a ++ addedLayers b := by
  simp [addedLayers, List.filterMap_append]

theorem evicted_quiet (ms : List (Marker ν)) :
    spoken (evicted ms) = [] ∧ alerts (evicted ms) = [] ∧ addedLayers (evicted ms) = [] := by
  unfold evicted
  rcases ms with _ | ⟨a, _ | ⟨b, r⟩⟩ <;>
    simp [spoken, alerts, addedLayers]

theorem mapAddLayer_tile (t : TileLayer) (s : Page ν) :
    (mapAddLayer (Layer.tile t) s).log = s.log ++ [Effect.addLayer (Layer.tile t)] ∧
    Layer.tile t ∈ (mapAddLayer (Layer.tile t) s).layers ∧
    (∀ l ∈ s.layers, l ∈ (mapAddLayer (Layer.tile t) s).layers) ∧
    (mapAddLayer (Layer.tile t) s).markers = s.markers ∧
    (mapAddLayer (Layer.tile t) s).routings = s.routings ∧
    (mapAddLayer (Layer.tile t) s).nextId = s.nextId := by
  unfold mapAddLayer
  simp only [Page.emit]
  split
  · rename_i h
    refine ⟨rfl, ?_, fun l hl => hl, rfl, rfl, rfl⟩
    rw [List.any_eq_true] at h
    obtain ⟨x, hx, hk⟩ := h
    cases x with
    | tile u =>
      have : u = t := by simpa [Layer.key] using hk
      subst this
      exact hx
    | marker m => simp [Layer.key] at hk
  · refine ⟨rfl, by simp, fun l hl => by simp [hl], rfl, rfl, rfl⟩

theorem toLatLng_ok (host : Host ν) (lat lon : ν) (hlat : host.isNaN lat = false)
    (hlon : host.isNaN lon = false) : toLatLng host lat lon = .ok (lat, lon) := by
  simp [toLatLng, hlat, hlon]

theorem toLatLng_nan (host : Host ν) (lat lon : ν)
    (h : host.isNaN lat = true ∨ host.isNaN lon = true) :
    toLatLng host lat lon = .error .invalidLatLng := by
  rcases h with h | h <;> simp [toLatLng, h]

theorem toLatLng_cases (host : Host ν) (lat lon : ν) :
    toLatLng host lat lon = .error .invalidLatLng ∨ toLatLng host lat lon = .ok (lat, lon) := by
  unfold toLatLng
  split
  · exact Or.inl rfl
  · exact Or.inr rfl

theorem lastN_two_snoc {α : Type} (xs : List α) (m : α) :
    lastN 2 (xs ++ [m]) = lastN 1 xs ++ [m] := by
  unfold lastN
  have h : (xs ++ [m]).length - 2 = xs.length - 1 := by simp
  rw [h, List.drop_append_of_le_length (by omega)]

theorem addMarker_tiles (lat lon : ν) (popupText : String) (s : Page ν) (t : TileLayer) :
    Layer.tile t ∈ (addMarker lat lon popupText s).layers ↔ Layer.tile t ∈ s.layers := by
  unfold addMarker mapAddLayer
  simp only [Page.emit]
  split <;> rcases hs : s.markers with _ | ⟨a, _ | ⟨b, r⟩⟩ <;>
    simp [hs, mapRemoveLayer, Page.emit, List.mem_filter, Layer.key]

/-- What `addMarker` leaves on the page: the counter advances, the routing controls and the
tile layers stay, the new marker is the last of the array; and under the invariant the array
and the markers on the map are both the last marker of before followed by the new one. -/
theorem addMarker_page (lat lon : ν) (popupText : String) (s : Page ν) :
    (addMarker lat lon popupText s).nextId = s.nextId + 1 ∧
    (addMarker lat lon popupText s).routings = s.routings ∧
    (addMarker lat lon popupText s).markers.getLast? = some (newMarker lat lon popupText s) ∧
    (∀ t, Layer.tile t ∈ (addMarker lat lon popupText s).layers ↔ Layer.tile t ∈ s.layers) ∧
    (MarkersInv s →
      (addMarker lat lon popupText s).markers =
        lastN 1 s.markers ++ [newMarker lat lon popupText s] ∧
      markersOnMap (addMarker lat lon popupText s) = (addMarker lat lon popupText s).markers ∧
      MarkersInv (addMarker lat lon popupText s)) := by
  obtain ⟨h1, h2, h3⟩ := addMarker_fields lat lon popupText s
  refine ⟨h1, h2, by simp [h3], addMarker_tiles lat lon popupText s, ?_⟩
  intro hinv
  obtain ⟨-, hmk, hinv2⟩ := addMarker_step lat lon popupText s hinv
  exact ⟨by rw [hmk, lastN_two_snoc], hinv2.1, hinv2⟩

theorem addMarker_emit (lat lon : ν) (popupText : String) (s : Page ν) (e : Effect ν) :
    (addMarker lat lon popupText (s.emit e)).layers = (addMarker lat lon popupText s).layers ∧
    (addMarker lat lon popupText (s.emit e)).markers = (addMarker lat lon popupText s).markers := by
  unfold addMarker mapAddLayer
  simp only [Page.emit]
  split <;> rcases hs : s.markers with _ | ⟨a, _ | ⟨b, r⟩⟩ <;>
    simp [hs, mapRemoveLayer, Page.emit]

theorem markersInv_initial : MarkersInv (initial : Page ν) := by
  simp [MarkersInv, markersOnMap, initial]

theorem navigateToLocation_parsed (host : Host ν) (location : String) (p : Place)
    (others : List Place) (s : Page ν) (hlat : host.isNaN (host.parseFloat p.lat) = false)
    (hlon : host.isNaN (host.parseFloat p.lon) = false) :
    navigateToLocation host location (.ok ⟨some (p :: others)⟩) s =
      speak ("Navigating to " ++ p.display_name)
        (addMarker (host.parseFloat p.lat) (host.parseFloat p.lon)
          ("<b>" ++ p.display_name ++ "</b>")
          ((s.emit (.httpGet (geocodeUrl host location))).emit
            (.flyTo (host.parseFloat p.lat) (host.parseFloat p.lon) 10))) := by
  simp [navigateToLocation, navigateThen, hasResults, firstResult, mapFlyTo,
    toLatLng_ok host _ _ hlat hlon]

theorem navigateToLocation_nan (host : Host ν) (location : String) (p : Place)
    (others : List Place) (s : Page ν)
    (h : host.isNaN (host.parseFloat p.lat) = true ∨ host.isNaN (host.parseFloat p.lon) = true) :
    navigateToLocation host location (.ok ⟨some (p :: others)⟩) s =
      navigateCatch .invalidLatLng (s.emit (.httpGet (geocodeUrl host location))) := by
  simp [navigateToLocation, navigateThen, hasResults, firstResult, mapFlyTo,
    toLatLng_nan host _ _ h]

theorem findRoute_parsed (host : Host ν) (source target : String) (p q : Place)
    (ps qs : List Place) (fromSettlesFirst : Bool) (s : Page ν)
    (hp : host.isNaN (host.parseFloat p.lat) = false ∧ host.isNaN (host.parseFloat p.lon) = false)
    (hq : host.isNaN (host.parseFloat q.lat) = false ∧ host.isNaN (host.parseFloat q.lon) = false) :
    findRoute host source target (.ok ⟨some (p :: ps)⟩) (.ok ⟨some (q :: qs)⟩) fromSettlesFirst s =
      speak ("Finding route from " ++ p.display_name ++ " to " ++ q.display_name)
        (addRoutingControl
          { waypoints := [(host.parseFloat p.lat, host.parseFloat p.lon),
              (host.parseFloat q.lat, host.parseFloat q.lon)],
            routeWhileDragging := true }
          ((s.emit (.httpGet (geocodeUrl host source))).emit
            (.httpGet (geocodeUrl host target)))) := by
  simp [findRoute, promiseAll, findRouteThen, bothHaveResults, dataLength, firstResult,
    toLatLng_ok host _ _ hp.1 hp.2, toLatLng_ok host _ _ hq.1 hq.2]

theorem findRoute_nan (host : Host ν) (source target : String) (p q : Place)
    (ps qs : List Place) (fromSettlesFirst : Bool) (s : Page ν)
    (h : (host.isNaN (host.parseFloat p.lat) = true ∨ host.isNaN (host.parseFloat p.lon) = true) ∨
      (host.isNaN (host.parseFloat q.lat) = true ∨ host.isNaN (host.parseFloat q.lon) = true)) :
    findRoute host source target (.ok ⟨some (p :: ps)⟩) (.ok ⟨some (q :: qs)⟩) fromSettlesFirst s =
      findRouteCatch .invalidLatLng
        ((s.emit (.httpGet (geocodeUrl host source))).emit
          (.httpGet (geocodeUrl host target))) := by
  rcases h with h | h
  · simp [findRoute, promiseAll, findRouteThen, bothHaveResults, dataLength, firstResult,
      toLatLng_nan host _ _ h]
  · rcases toLatLng_cases host (host.parseFloat p.lat) (host.parseFloat p.lon) with hp | hp <;>
      simp [findRoute, promiseAll, findRouteThen, bothHaveResults, dataLength, firstResult,
        toLatLng_nan host _ _ h, hp]

/-! ## The claims -/

/-- Claim C3. When the lookup of `navigateToLocation` resolves with an empty result array, the
workflow alerts "Location not found!" and speaks "Location not found!", once each and
nothing else after the request; it calls neither `flyTo` nor `addMarker`, and the map and
the marker list are unchanged. -/
theorem navigate_empty_result (host : Host ν) (location : String) (s : Page ν) :
    (navigateToLocation host location (.ok ⟨some []⟩) s).log =
      s.log ++ [Effect.httpGet (geocodeUrl host location), Effect.alert "Location not found!",
        Effect.speak "Location not found!"] ∧
    MapUntouched s (navigateToLocation host location (.ok ⟨some []⟩) s) := by
  simp [navigateToLocation, navigateThen, hasResults, speak, alert, Page.emit, MapUntouched]

/-- Claim C4. When both lookups of `findRoute` resolve with result arrays, a routing control is
added only if both arrays are non-empty; and if either array is empty, the workflow alerts
and speaks "One or both locations not found!", once each and nothing else after the two
requests, with no routing control added and the map and the marker list unchanged. -/
theorem findRoute_needs_both (host : Host ν) (source target : String) (xs ys : List Place)
    (fromSettlesFirst : Bool) (s : Page ν) :
    ((findRoute host source target (.ok ⟨some xs⟩) (.ok ⟨some ys⟩) fromSettlesFirst s).routings
        ≠ s.routings → xs ≠ [] ∧ ys ≠ []) ∧
    (xs = [] ∨ ys = [] →
      (findRoute host source target (.ok ⟨some xs⟩) (.ok ⟨some ys⟩) fromSettlesFirst s).log =
        s.log ++ [Effect.httpGet (geocodeUrl host source), Effect.httpGet (geocodeUrl host target),
          Effect.alert "One or both locations not found!",
          Effect.speak "One or both locations not found!"] ∧
      MapUntouched s
        (findRoute host source target (.ok ⟨some xs⟩) (.ok ⟨some ys⟩) fromSettlesFirst s)) := by
  have hempty : xs = [] ∨ ys = [] →
      (findRoute host source target (.ok ⟨some xs⟩) (.ok ⟨some ys⟩) fromSettlesFirst s).log =
        s.log ++ [Effect.httpGet (geocodeUrl host source), Effect.httpGet (geocodeUrl host target),
          Effect.alert "One or both locations not found!",
          Effect.speak "One or both locations not found!"] ∧
      MapUntouched s
        (findRoute host source target (.ok ⟨some xs⟩) (.ok ⟨some ys⟩) fromSettlesFirst s) := by
    intro h
    rcases xs with _ | ⟨x, xs⟩
    · simp [findRoute, promiseAll, findRouteThen, bothHaveResults, dataLength, speak, alert,
        Page.emit, MapUntouched]
    · rcases h with h | h
      · exact absurd h (by simp)
      · subst h
        simp [findRoute, promiseAll, findRouteThen, bothHaveResults, dataLength, speak, alert,
          Page.emit, MapUntouched]
  refine ⟨?_, hempty⟩
  intro hne
  by_contra hcon
  have h : xs = [] ∨ ys = [] := by
    by_cases hx : xs = []
    · exact Or.inl hx
    · by_cases hy : ys = []
      · exact Or.inr hy
      · exact absurd ⟨hx, hy⟩ hcon
  exact hne (hempty h).2.2.2.1

/-- An instance of C4: the first lookup finds nothing, the second finds Paris. -/
theorem findRoute_needs_both_witness :
    (findRoute sampleHost "zzzznowhere" "Paris" (.ok ⟨some []⟩) (.ok ⟨some [paris]⟩) true
        initial).log =
      [Effect.httpGet (geocodeUrl sampleHost "zzzznowhere"),
        Effect.httpGet (geocodeUrl sampleHost "Paris"),
        Effect.alert "One or both locations not found!",
        Effect.speak "One or both locations not found!"] ∧
    MapUntouched initial
      (findRoute sampleHost "zzzznowhere" "Paris" (.ok ⟨some []⟩) (.ok ⟨some [paris]⟩) true
        initial) :=
  (findRoute_needs_both sampleHost "zzzznowhere" "Paris" [] [paris] true initial).2 (Or.inl rfl)

/-- Claim C7. A failed request leads to the error outcome, not to NotFound.  For
`navigateToLocation`: the error is logged, and "Error fetching location. Please try again."
is alerted and spoken.  For `findRoute`, when either request fails, whatever the other
returns: a rejection reason is logged, and "Error fetching locations. Please try again." is
alerted and spoken.  Each message differs from the NotFound message of its workflow, and the
map and the marker list are unchanged (no `flyTo`, no marker, no routing control). -/
theorem request_failure_is_error (host : Host ν) (location source target : String) (e : JSError)
    (other : Except JSError Response) (fromSettlesFirst : Bool) (s : Page ν) :
    ((navigateToLocation host location (.error e) s).log =
        s.log ++ [Effect.httpGet (geocodeUrl host location),
          Effect.consoleError "Error fetching location:" e,
          Effect.alert "Error fetching location. Please try again.",
          Effect.speak "Error fetching location. Please try again."] ∧
      MapUntouched s (navigateToLocation host location (.error e) s)) ∧
    ((∃ err, (err = e ∨ other = .error err) ∧
        (findRoute host source target (.error e) other fromSettlesFirst s).log =
        s.log ++ [Effect.httpGet (geocodeUrl host source), Effect.httpGet (geocodeUrl host target),
          Effect.consoleError "Error fetching locations:" err,
          Effect.alert "Error fetching locations. Please try again.",
          Effect.speak "Error fetching locations. Please try again."]) ∧
      MapUntouched s (findRoute host source target (.error e) other fromSettlesFirst s)) ∧
    ((∃ err, (err = e ∨ other = .error err) ∧
        (findRoute host source target other (.error e) fromSettlesFirst s).log =
        s.log ++ [Effect.httpGet (geocodeUrl host source), Effect.httpGet (geocodeUrl host target),
          Effect.consoleError "Error fetching locations:" err,
          Effect.alert "Error fetching locations. Please try again.",
          Effect.speak "Error fetching locations. Please try again."]) ∧
      MapUntouched s (findRoute host source target other (.error e) fromSettlesFirst s)) ∧
    "Error fetching location. Please try again." ≠ "Location not found!" ∧
    "Error fetching locations. Please try again." ≠ "One or both locations not found!" := by
  refine ⟨?_, ?_, ?_, by decide, by decide⟩
  · simp [navigateToLocation, navigateCatch, speak, alert, Page.emit, MapUntouched]
  · rcases other with e2 | r
    · refine ⟨⟨if fromSettlesFirst then e else e2, ?_, ?_⟩, ?_⟩
      · cases fromSettlesFirst <;> simp
      all_goals
        simp [findRoute, promiseAll, findRouteCatch, speak, alert, Page.emit, MapUntouched]
    · refine ⟨⟨e, Or.inl rfl, ?_⟩, ?_⟩ <;>
        simp [findRoute, promiseAll, findRouteCatch, speak, alert, Page.emit, MapUntouched]
  · rcases other with e2 | r
    · refine ⟨⟨if fromSettlesFirst then e2 else e, ?_, ?_⟩, ?_⟩
      · cases fromSettlesFirst <;> simp
      all_goals
        simp [findRoute, promiseAll, findRouteCatch, speak, alert, Page.emit, MapUntouched]
    · refine ⟨⟨e, Or.inl rfl, ?_⟩, ?_⟩ <;>
        simp [findRoute, promiseAll, findRouteCatch, speak, alert, Page.emit, MapUntouched]

/-- The claim C10 as stated fails when the `from` response holds an empty array and the `to`
response has no data: `findRoute` takes the NotFound outcome, not the error outcome. -/
theorem findRoute_absent_after_empty :
    (findRoute sampleHost "zzzznowhere" "Paris" (.ok ⟨some []⟩) (.ok ⟨none⟩) true initial).log =
      [Effect.httpGet (geocodeUrl sampleHost "zzzznowhere"),
        Effect.httpGet (geocodeUrl sampleHost "Paris"),
        Effect.alert "One or both locations not found!",
        Effect.speak "One or both locations not found!"] ∧
    alerts (findRoute sampleHost "zzzznowhere" "Paris" (.ok ⟨some []⟩) (.ok ⟨none⟩) true
        initial).log ≠ ["Error fetching locations. Please try again."] := by
  have h : (findRoute sampleHost "zzzznowhere" "Paris" (.ok ⟨some []⟩) (.ok ⟨none⟩) true
      initial).log =
      [Effect.httpGet (geocodeUrl sampleHost "zzzznowhere"),
        Effect.httpGet (geocodeUrl sampleHost "Paris"),
        Effect.alert "One or both locations not found!",
        Effect.speak "One or both locations not found!"] := rfl
  refine ⟨h, ?_⟩
  rw [h]
  simp [alerts]

/-- Claim C10, amended. A resolved response whose data is absent: `navigateToLocation` guards
the data and takes the NotFound outcome ("Location not found!" alerted and spoken).
`findRoute` reads the lengths unguarded, left operand first: when the `from` data is absent,
or the `from` array is non-empty and the `to` data is absent, the `TypeError` leads to the
error outcome ("Error fetching locations. Please try again." alerted and spoken); when the
`from` array is empty the `to` data is never read, and with absent `to` data the outcome is
NotFound ("One or both locations not found!").  In every one of these cases the map and the
marker list are unchanged. -/
theorem absent_data_outcomes (host : Host ν) (location source target : String)
    (other : Response) (p : Place) (ps : List Place) (fromSettlesFirst : Bool) (s : Page ν) :
    ((navigateToLocation host location (.ok ⟨none⟩) s).log =
        s.log ++ [Effect.httpGet (geocodeUrl host location), Effect.alert "Location not found!",
          Effect.speak "Location not found!"] ∧
      MapUntouched s (navigateToLocation host location (.ok ⟨none⟩) s)) ∧
    ((findRoute host source target (.ok ⟨none⟩) (.ok other) fromSettlesFirst s).log =
        s.log ++ [Effect.httpGet (geocodeUrl host source), Effect.httpGet (geocodeUrl host target),
          Effect.consoleError "Error fetching locations:" JSError.typeError,
          Effect.alert "Error fetching locations. Please try again.",
          Effect.speak "Error fetching locations. Please try again."] ∧
      MapUntouched s
        (findRoute host source target (.ok ⟨none⟩) (.ok other) fromSettlesFirst s)) ∧
    ((findRoute host source target (.ok ⟨some (p :: ps)⟩) (.ok ⟨none⟩) fromSettlesFirst s).log =
        s.log ++ [Effect.httpGet (geocodeUrl host source), Effect.httpGet (geocodeUrl host target),
          Effect.consoleError "Error fetching locations:" JSError.typeError,
          Effect.alert "Error fetching locations. Please try again.",
          Effect.speak "Error fetching locations. Please try again."] ∧
      MapUntouched s
        (findRoute host source target (.ok ⟨some (p :: ps)⟩) (.ok ⟨none⟩) fromSettlesFirst s)) ∧
    ((findRoute host source target (.ok ⟨some []⟩) (.ok ⟨none⟩) fromSettlesFirst s).log =
        s.log ++ [Effect.httpGet (geocodeUrl host source), Effect.httpGet (geocodeUrl host target),
          Effect.alert "One or both locations not found!",
          Effect.speak "One or both locations not found!"] ∧
      MapUntouched s
        (findRoute host source target (.ok ⟨some []⟩) (.ok ⟨none⟩) fromSettlesFirst s)) := by
  refine ⟨?_, ?_, ?_, ?_⟩
  · simp [navigateToLocation, navigateThen, hasResults, speak, alert, Page.emit, MapUntouched]
  · simp [findRoute, promiseAll, findRouteThen, findRouteCatch, bothHaveResults, dataLength,
      speak, alert, Page.emit, MapUntouched]
  · simp [findRoute, promiseAll, findRouteThen, findRouteCatch, bothHaveResults, dataLength,
      speak, alert, Page.emit, MapUntouched]
  · simp [findRoute, promiseAll, findRouteThen, findRouteCatch, bothHaveResults, dataLength,
      speak, alert, Page.emit, MapUntouched]

/-- The claim C2 as stated fails in two ways.  On the Paris scenario the one marker added
does not have the display name "Paris, France" as its popup text; its popup text is
"<b>Paris, France</b>".  And on a first result whose latitude string is "abc", which does
not parse to a number, `map.flyTo` throws: the `.catch` handler logs the error and alerts and
speaks the error message, nothing is flown to and no marker is added. -/
theorem navigate_popup_not_display_name :
    ((markersOnMap (navigateToLocation sampleHost "Paris" (.ok ⟨some [paris]⟩) initial)).map
        Marker.popupText = ["<b>Paris, France</b>"] ∧
      ¬ ∃ m ∈ markersOnMap (navigateToLocation sampleHost "Paris" (.ok ⟨some [paris]⟩) initial),
        m.popupText = paris.display_name) ∧
    ((navigateToLocation sampleHost "Paris" (.ok ⟨some [garbled]⟩) initial).log =
        [Effect.httpGet (geocodeUrl sampleHost "Paris"),
          Effect.consoleError "Error fetching location:" JSError.invalidLatLng,
          Effect.alert "Error fetching location. Please try again.",
          Effect.speak "Error fetching location. Please try again."] ∧
      markersOnMap (navigateToLocation sampleHost "Paris" (.ok ⟨some [garbled]⟩) initial) = []) := by
  have h : markersOnMap (navigateToLocation sampleHost "Paris" (.ok ⟨some [paris]⟩) initial) =
      [{ id := 0, lat := sampleHost.parseFloat "48.8566", lon := sampleHost.parseFloat "2.3522",
         popupText := "<b>Paris, France</b>" }] := by
    rfl
  rw [h]
  refine ⟨⟨rfl, ?_⟩, rfl, rfl⟩
  simp [paris]

/-- Claim C2, amended. When the lookup of `navigateToLocation` resolves with a non-empty
array whose first element has display name `d` and latitude and longitude strings `la`, `lo`
that parse to numbers (`parseFloat` gives no `NaN`), the workflow calls `flyTo` at
(`parseFloat la`, `parseFloat lo`) with zoom 10, adds exactly one marker at that coordinate
whose popup text is `d` wrapped in bold markup, `<b>d</b>`, and speaks "Navigating to d"; it
raises no alert, and the other elements of the array have no influence.  The tile layers on
the map stay as they are, the layers and the array are those that `addMarker` leaves, and on
a page that satisfies the marker invariant the array and the markers on the map are both: the
last marker of before, then the new one. -/
theorem navigate_first_result (host : Host ν) (location d la lo : String) (others : List Place)
    (s : Page ν) (hla : host.isNaN (host.parseFloat la) = false)
    (hlo : host.isNaN (host.parseFloat lo) = false) :
    (navigateToLocation host location
        (.ok ⟨some ({ display_name := d, lat := la, lon := lo } :: others)⟩) s).log =
      s.log ++ [Effect.httpGet (geocodeUrl host location),
        Effect.flyTo (host.parseFloat la) (host.parseFloat lo) 10,
        Effect.addLayer (Layer.marker
          { id := s.nextId, lat := host.parseFloat la, lon := host.parseFloat lo,
            popupText := "<b>" ++ d ++ "</b>" }),
        Effect.openPopup s.nextId] ++ evicted s.markers ++ [Effect.speak ("Navigating to " ++ d)] ∧
    addedLayers (navigateToLocation host location
        (.ok ⟨some ({ display_name := d, lat := la, lon := lo } :: others)⟩) s).log =
      addedLayers s.log ++ [Layer.marker
          { id := s.nextId, lat := host.parseFloat la, lon := host.parseFloat lo,
            popupText := "<b>" ++ d ++ "</b>" }] ∧
    (navigateToLocation host location
        (.ok ⟨some ({ display_name := d, lat := la, lon := lo } :: others)⟩) s).markers.getLast? =
      some { id := s.nextId, lat := host.parseFloat la, lon := host.parseFloat lo,
             popupText := "<b>" ++ d ++ "</b>" } ∧
    (navigateToLocation host location
        (.ok ⟨some ({ display_name := d, lat := la, lon := lo } :: others)⟩) s).nextId =
      s.nextId + 1 ∧
    (navigateToLocation host location
        (.ok ⟨some ({ display_name := d, lat := la, lon := lo } :: others)⟩) s).routings =
      s.routings ∧
    navigateToLocation host location
        (.ok ⟨some ({ display_name := d, lat := la, lon := lo } :: others)⟩) s =
      navigateToLocation host location
        (.ok ⟨some [{ display_name := d, lat := la, lon := lo }]⟩) s ∧
    (∀ t, Layer.tile t ∈ (navigateToLocation host location
        (.ok ⟨some ({ display_name := d, lat := la, lon := lo } :: others)⟩) s).layers ↔
      Layer.tile t ∈ s.layers) ∧
    ((navigateToLocation host location
        (.ok ⟨some ({ display_name := d, lat := la, lon := lo } :: others)⟩) s).layers =
        (addMarker (host.parseFloat la) (host.parseFloat lo) ("<b>" ++ d ++ "</b>") s).layers ∧
      (navigateToLocation host location
        (.ok ⟨some ({ display_name := d, lat := la, lon := lo } :: others)⟩) s).markers =
        (addMarker (host.parseFloat la) (host.parseFloat lo) ("<b>" ++ d ++ "</b>") s).markers) ∧
    (MarkersInv s →
      (navigateToLocation host location
          (.ok ⟨some ({ display_name := d, lat := la, lon := lo } :: others)⟩) s).markers =
        lastN 1 s.markers ++
          [{ id := s.nextId, lat := host.parseFloat la, lon := host.parseFloat lo,
             popupText := "<b>" ++ d ++ "</b>" }] ∧
      markersOnMap (navigateToLocation host location
          (.ok ⟨some ({ display_name := d, lat := la, lon := lo } :: others)⟩) s) =
        (navigateToLocation host location
          (.ok ⟨some ({ display_name := d, lat := la, lon := lo } :: others)⟩) s).markers ∧
      MarkersInv (navigateToLocation host location
          (.ok ⟨some ({ display_name := d, lat := la, lon := lo } :: others)⟩) s)) := by
  have heq := navigateToLocation_parsed host location { display_name := d, lat := la, lon := lo }
    others s hla hlo
  have heq1 := navigateToLocation_parsed host location { display_name := d, lat := la, lon := lo }
    [] s hla hlo
  obtain ⟨h1, h2, h3, h4, h5⟩ := addMarker_page (host.parseFloat la) (host.parseFloat lo)
    ("<b>" ++ d ++ "</b>")
    ((s.emit (.httpGet (geocodeUrl host location))).emit
      (.flyTo (host.parseFloat la) (host.parseFloat lo) 10))
  have hlog := addMarker_log (host.parseFloat la) (host.parseFloat lo) ("<b>" ++ d ++ "</b>")
    ((s.emit (.httpGet (geocodeUrl host location))).emit
      (.flyTo (host.parseFloat la) (host.parseFloat lo) 10))
  have hlog2 : (navigateToLocation host location
        (.ok ⟨some ({ display_name := d, lat := la, lon := lo } :: others)⟩) s).log =
      s.log ++ [Effect.httpGet (geocodeUrl host location),
        Effect.flyTo (host.parseFloat la) (host.parseFloat lo) 10,
        Effect.addLayer (Layer.marker
          { id := s.nextId, lat := host.parseFloat la, lon := host.parseFloat lo,
            popupText := "<b>" ++ d ++ "</b>" }),
        Effect.openPopup s.nextId] ++ evicted s.markers ++
        [Effect.speak ("Navigating to " ++ d)] := by
    rw [heq]
    simp only [speak, Page.emit] at hlog ⊢
    rw [hlog]
    simp [newMarker]
  have he1 := addMarker_emit (host.parseFloat la) (host.parseFloat lo) ("<b>" ++ d ++ "</b>")
    (s.emit (.httpGet (geocodeUrl host location)))
    (.flyTo (host.parseFloat la) (host.parseFloat lo) 10)
  have he2 := addMarker_emit (host.parseFloat la) (host.parseFloat lo) ("<b>" ++ d ++ "</b>")
    s (.httpGet (geocodeUrl host location))
  refine ⟨hlog2, ?_, ?_, ?_, ?_, ?_, ?_, ?_, ?_⟩
  · rw [hlog2]
    simp only [addedLayers_append, (evicted_quiet s.markers).2.2]
    simp [addedLayers]
  · rw [heq]
    exact h3
  · rw [heq]
    exact h1
  · rw [heq]
    exact h2
  · rw [heq, heq1]
  · rw [heq]
    exact h4
  · rw [heq]
    exact ⟨he1.1.trans he2.1, he1.2.trans he2.2⟩
  · intro hinv
    rw [heq]
    exact h5 hinv

/-- The Paris scenario of C2 on the fresh page: both coordinate strings parse, the fresh page
satisfies the marker invariant, and the one marker on the map afterwards is at the parsed
coordinate with popup text "<b>Paris, France</b>". -/
theorem navigate_first_result_witness :
    sampleHost.isNaN (sampleHost.parseFloat "48.8566") = false ∧
    sampleHost.isNaN (sampleHost.parseFloat "2.3522") = false ∧
    MarkersInv (initial : Page (Option ℚ)) ∧
    (navigateToLocation sampleHost "Paris" (.ok ⟨some [paris]⟩) initial).log =
      [Effect.httpGet (geocodeUrl sampleHost "Paris"),
        Effect.flyTo (sampleHost.parseFloat "48.8566") (sampleHost.parseFloat "2.3522") 10,
        Effect.addLayer (Layer.marker
          { id := 0, lat := sampleHost.parseFloat "48.8566",
            lon := sampleHost.parseFloat "2.3522", popupText := "<b>Paris, France</b>" }),
        Effect.openPopup 0, Effect.speak "Navigating to Paris, France"] ∧
    markersOnMap (navigateToLocation sampleHost "Paris" (.ok ⟨some [paris]⟩) initial) =
      [{ id := 0, lat := sampleHost.parseFloat "48.8566",
         lon := sampleHost.parseFloat "2.3522", popupText := "<b>Paris, France</b>" }] := by
  have h := navigate_first_result sampleHost "Paris" "Paris, France" "48.8566" "2.3522" []
    initial rfl rfl
  have hinv : MarkersInv (initial : Page (Option ℚ)) := markersInv_initial
  refine ⟨rfl, rfl, hinv, ?_, ?_⟩
  · exact h.1
  · have h9 := h.2.2.2.2.2.2.2.2 hinv
    exact h9.2.1.trans h9.1

/-- The claim C5 as stated fails when a first result has a coordinate string that does not
parse to a number: with latitude "abc" on the `from` side `L.latLng` throws before
`L.Routing.control` is called, no routing control is added, and the `.catch` handler logs
the error and alerts and speaks the error message. -/
theorem findRoute_unparsable_coordinate :
    (findRoute sampleHost "Paris" "Delhi" (.ok ⟨some [garbled]⟩) (.ok ⟨some [delhi]⟩) true
        initial).log =
      [Effect.httpGet (geocodeUrl sampleHost "Paris"),
        Effect.httpGet (geocodeUrl sampleHost "Delhi"),
        Effect.consoleError "Error fetching locations:" JSError.invalidLatLng,
        Effect.alert "Error fetching locations. Please try again.",
        Effect.speak "Error fetching locations. Please try again."] ∧
    (findRoute sampleHost "Paris" "Delhi" (.ok ⟨some [garbled]⟩) (.ok ⟨some [delhi]⟩) true
        initial).routings = [] :=
  ⟨rfl, rfl⟩

/-- Claim C5, amended. When both lookups of `findRoute` resolve with non-empty arrays whose
first elements have latitude and longitude strings that parse to numbers, the workflow adds
exactly one routing control, with the two waypoints (parsed latitude, parsed longitude) of
the first `from` result and of the first `to` result in that order and `routeWhileDragging`
on, and speaks "Finding route from <from display_name> to <to display_name>"; it makes no
other call after the two requests (no alert, no marker, no `flyTo`), and the marker list and
the layers are unchanged. -/
theorem findRoute_both_found (host : Host ν) (source target : String) (p q : Place)
    (ps qs : List Place) (fromSettlesFirst : Bool) (s : Page ν)
    (hp : host.isNaN (host.parseFloat p.lat) = false ∧ host.isNaN (host.parseFloat p.lon) = false)
    (hq : host.isNaN (host.parseFloat q.lat) = false ∧ host.isNaN (host.parseFloat q.lon) = false) :
    (findRoute host source target (.ok ⟨some (p :: ps)⟩) (.ok ⟨some (q :: qs)⟩)
        fromSettlesFirst s).log =
      s.log ++ [Effect.httpGet (geocodeUrl host source), Effect.httpGet (geocodeUrl host target),
        Effect.addRouting
          { waypoints := [(host.parseFloat p.lat, host.parseFloat p.lon),
              (host.parseFloat q.lat, host.parseFloat q.lon)],
            routeWhileDragging := true },
        Effect.speak ("Finding route from " ++ p.display_name ++ " to " ++ q.display_name)] ∧
    (findRoute host source target (.ok ⟨some (p :: ps)⟩) (.ok ⟨some (q :: qs)⟩)
        fromSettlesFirst s).routings =
      s.routings ++
        [{ waypoints := [(host.parseFloat p.lat, host.parseFloat p.lon),
              (host.parseFloat q.lat, host.parseFloat q.lon)],
           routeWhileDragging := true }] ∧
    (findRoute host source target (.ok ⟨some (p :: ps)⟩) (.ok ⟨some (q :: qs)⟩)
        fromSettlesFirst s).markers = s.markers ∧
    (findRoute host source target (.ok ⟨some (p :: ps)⟩) (.ok ⟨some (q :: qs)⟩)
        fromSettlesFirst s).layers = s.layers ∧
    (findRoute host source target (.ok ⟨some (p :: ps)⟩) (.ok ⟨some (q :: qs)⟩)
        fromSettlesFirst s).nextId = s.nextId := by
  rw [findRoute_parsed host source target p q ps qs fromSettlesFirst s hp hq]
  simp [speak, addRoutingControl, Page.emit]

/-- The route scenario of C5 on the fresh page, from Delhi to Paris: all four coordinate
strings parse, and one routing control with the two waypoints is added. -/
theorem findRoute_both_found_witness :
    (sampleHost.isNaN (sampleHost.parseFloat delhi.lat) = false ∧
      sampleHost.isNaN (sampleHost.parseFloat delhi.lon) = false) ∧
    (sampleHost.isNaN (sampleHost.parseFloat paris.lat) = false ∧
      sampleHost.isNaN (sampleHost.parseFloat paris.lon) = false) ∧
    (findRoute sampleHost "Delhi" "Paris" (.ok ⟨some [delhi]⟩) (.ok ⟨some [paris]⟩) true
        initial).routings =
      [{ waypoints := [(sampleHost.parseFloat "28.6139", sampleHost.parseFloat "77.2090"),
            (sampleHost.parseFloat "48.8566", sampleHost.parseFloat "2.3522")],
         routeWhileDragging := true }] ∧
    (findRoute sampleHost "Delhi" "Paris" (.ok ⟨some [delhi]⟩) (.ok ⟨some [paris]⟩) true
        initial).log =
      [Effect.httpGet (geocodeUrl sampleHost "Delhi"),
        Effect.httpGet (geocodeUrl sampleHost "Paris"),
        Effect.addRouting
          { waypoints := [(sampleHost.parseFloat "28.6139", sampleHost.parseFloat "77.2090"),
              (sampleHost.parseFloat "48.8566", sampleHost.parseFloat "2.3522")],
            routeWhileDragging := true },
        Effect.speak "Finding route from Delhi, India to Paris, France"] := by
  have h := findRoute_both_found sampleHost "Delhi" "Paris" delhi paris [] [] true initial
    ⟨rfl, rfl⟩ ⟨rfl, rfl⟩
  exact ⟨⟨rfl, rfl⟩, ⟨rfl, rfl⟩, h.2.1, h.1⟩

/-- The claim C6 as stated fails on a non-empty result whose first latitude string does not
parse to a number: `navigateToLocation` then emits one alert (the error message), not
none. -/
theorem alert_on_unparsable_result :
    found (.ok ⟨some [garbled]⟩) = true ∧
    alerts (navigateToLocation sampleHost "Paris" (.ok ⟨some [garbled]⟩) initial).log =
      ["Error fetching location. Please try again."] ∧
    spoken (navigateToLocation sampleHost "Paris" (.ok ⟨some [garbled]⟩) initial).log =
      ["Error fetching location. Please try again."] :=
  ⟨rfl, rfl, rfl⟩

/-- Claim C6, amended. Whatever the outcome of the request (or of the two requests),
`navigateToLocation` and `findRoute` each emit exactly one spoken utterance.  They emit no
alert in the success outcome, where the lookup (for `findRoute`: each of the two) resolves
with a non-empty array whose first element has coordinates that parse to numbers; and they
emit exactly one alert when the request fails or the result is empty or absent (for
`findRoute`: when that holds of either lookup). -/
theorem one_utterance_per_outcome (host : Host ν) (location source target : String)
    (reply replyFrom replyTo : Except JSError Response) (fromSettlesFirst : Bool) (s : Page ν) :
    (spoken (navigateToLocation host location reply s).log).length = (spoken s.log).length + 1 ∧
    (succeeds host reply = true →
      (alerts (navigateToLocation host location reply s).log).length = (alerts s.log).length) ∧
    (found reply = false →
      (alerts (navigateToLocation host location reply s).log).length =
        (alerts s.log).length + 1) ∧
    (spoken (findRoute host source target replyFrom replyTo fromSettlesFirst s).log).length =
      (spoken s.log).length + 1 ∧
    (succeeds host replyFrom = true ∧ succeeds host replyTo = true →
      (alerts (findRoute host source target replyFrom replyTo fromSettlesFirst s).log).length =
        (alerts s.log).length) ∧
    (found replyFrom = false ∨ found replyTo = false →
      (alerts (findRoute host source target replyFrom replyTo fromSettlesFirst s).log).length =
        (alerts s.log).length + 1) := by
  have hq := evicted_quiet s.markers
  simp only [spoken, alerts] at hq
  refine ⟨?_, ?_, ?_, ?_, ?_, ?_⟩
  · rcases reply with e | ⟨_ | (_ | ⟨p, ps⟩)⟩
    · simp [navigateToLocation, navigateCatch, speak, alert, Page.emit, spoken]
    · simp [navigateToLocation, navigateThen, hasResults, speak, alert, Page.emit, spoken]
    · simp [navigateToLocation, navigateThen, hasResults, speak, alert, Page.emit, spoken]
    · rcases toLatLng_cases host (host.parseFloat p.lat) (host.parseFloat p.lon) with h | h <;>
        simp [navigateToLocation, navigateThen, navigateCatch, hasResults, firstResult, mapFlyTo,
          h, speak, alert, Page.emit, addMarker_log, spoken, hq.1]
  · intro hs
    rcases reply with e | ⟨_ | (_ | ⟨p, ps⟩)⟩
    · simp [succeeds] at hs
    · simp [succeeds] at hs
    · simp [succeeds] at hs
    · simp only [succeeds, Bool.and_eq_true, Bool.not_eq_true', decide_eq_true_eq] at hs
      rw [navigateToLocation_parsed host location p ps s hs.1 hs.2]
      simp [speak, Page.emit, addMarker_log, alerts, hq.2.1]
  · intro hf
    rcases reply with e | ⟨_ | (_ | ⟨p, ps⟩)⟩
    · simp [navigateToLocation, navigateCatch, speak, alert, Page.emit, alerts]
    · simp [navigateToLocation, navigateThen, hasResults, speak, alert, Page.emit, alerts]
    · simp [navigateToLocation, navigateThen, hasResults, speak, alert, Page.emit, alerts]
    · simp [found] at hf
  · rcases replyFrom with e | ⟨_ | (_ | ⟨p, ps⟩)⟩ <;>
      rcases replyTo with e2 | ⟨_ | (_ | ⟨q, qs⟩)⟩
    all_goals try (
      simp [findRoute, promiseAll, findRouteThen, findRouteCatch, bothHaveResults, dataLength,
        firstResult, speak, alert, addRoutingControl, Page.emit, spoken]
      done)
    rcases toLatLng_cases host (host.parseFloat p.lat) (host.parseFloat p.lon) with h | h <;>
      rcases toLatLng_cases host (host.parseFloat q.lat) (host.parseFloat q.lon) with h2 | h2 <;>
      simp [findRoute, promiseAll, findRouteThen, findRouteCatch, bothHaveResults,
        dataLength, firstResult, h, h2, speak, alert, addRoutingControl, Page.emit, spoken]
  · rintro ⟨hs1, hs2⟩
    rcases replyFrom with e | ⟨_ | (_ | ⟨p, ps⟩)⟩ <;> try (simp [succeeds] at hs1; done)
    rcases replyTo with e2 | ⟨_ | (_ | ⟨q, qs⟩)⟩ <;> try (simp [succeeds] at hs2; done)
    simp only [succeeds, Bool.and_eq_true, Bool.not_eq_true', decide_eq_true_eq] at hs1 hs2
    rw [findRoute_parsed host source target p q ps qs fromSettlesFirst s hs1 hs2]
    simp [speak, addRoutingControl, Page.emit, alerts]
  · intro hf
    rcases replyFrom with e | ⟨_ | (_ | ⟨p, ps⟩)⟩ <;>
      rcases replyTo with e2 | ⟨_ | (_ | ⟨q, qs⟩)⟩
    all_goals try (
      simp [findRoute, promiseAll, findRouteThen, findRouteCatch, bothHaveResults, dataLength,
        firstResult, speak, alert, addRoutingControl, Page.emit, alerts]
      done)
    simp [found] at hf

/-- Instances of C6 on the fresh page: the Paris result is a success and brings no alert; an
empty result, and a failure of the second of the two requests, bring one alert each. -/
theorem one_utterance_per_outcome_witness :
    (succeeds sampleHost (.ok ⟨some [paris]⟩) = true ∧
      (alerts (navigateToLocation sampleHost "Paris" (.ok ⟨some [paris]⟩) initial).log).length =
        (alerts (initial : Page (Option ℚ)).log).length) ∧
    (found (.ok ⟨some []⟩) = false ∧
      (alerts (navigateToLocation sampleHost "zzzznowhere" (.ok ⟨some []⟩) initial).log).length =
        (alerts (initial : Page (Option ℚ)).log).length + 1) ∧
    ((succeeds sampleHost (.ok ⟨some [delhi]⟩) = true ∧
        succeeds sampleHost (.ok ⟨some [paris]⟩) = true) ∧
      (alerts (findRoute sampleHost "Delhi" "Paris" (.ok ⟨some [delhi]⟩) (.ok ⟨some [paris]⟩)
        true initial).log).length = (alerts (initial : Page (Option ℚ)).log).length) ∧
    (found (.error (.rejected "timeout")) = false ∧
      (alerts (findRoute sampleHost "Delhi" "Paris" (.ok ⟨some [delhi]⟩)
        (.error (.rejected "timeout")) true initial).log).length =
        (alerts (initial : Page (Option ℚ)).log).length + 1) :=
  ⟨⟨rfl, (one_utterance_per_outcome sampleHost "Paris" "Delhi" "Paris" (.ok ⟨some [paris]⟩)
      (.ok ⟨some [delhi]⟩) (.ok ⟨some [paris]⟩) true initial).2.1 rfl⟩,
   ⟨rfl, (one_utterance_per_outcome sampleHost "zzzznowhere" "Delhi" "Paris" (.ok ⟨some []⟩)
      (.ok ⟨some [delhi]⟩) (.ok ⟨some [paris]⟩) true initial).2.2.1 rfl⟩,
   ⟨⟨rfl, rfl⟩, (one_utterance_per_outcome sampleHost "Paris" "Delhi" "Paris"
      (.ok ⟨some [paris]⟩) (.ok ⟨some [delhi]⟩) (.ok ⟨some [paris]⟩) true initial).2.2.2.2.1
      ⟨rfl, rfl⟩⟩,
   ⟨rfl, (one_utterance_per_outcome sampleHost "Paris" "Delhi" "Paris" (.ok ⟨some [paris]⟩)
      (.ok ⟨some [delhi]⟩) (.error (.rejected "timeout")) true initial).2.2.2.2.2
      (Or.inr rfl)⟩⟩

/-- Claim C8. The click handler of the locate button has three outcomes.  Geolocation missing:
it alerts and speaks "Geolocation is not supported by your browser" and issues no position
request.  Position (lat, lon) obtained (the coordinates that the geolocation API reports are
numbers, never `NaN`): it calls `flyTo` at (lat, lon) with zoom 12, adds one marker there with
popup "You are here" through `addMarker`, and speaks one confirmation, with no alert; the tile
layers stay, and on a page that satisfies the marker invariant the array and the markers on
the map are both: the last marker of before, then the new one, so at most two.  Request
failed: it alerts and speaks "Unable to retrieve your location" and leaves the map and the
marker list as they are. -/
theorem locate_outcomes (host : Host ν) (lat lon : ν) (s : Page ν) :
    ((locateClick host none s).log =
        s.log ++ [Effect.alert "Geolocation is not supported by your browser",
          Effect.speak "Geolocation is not supported by your browser"] ∧
      MapUntouched s (locateClick host none s)) ∧
    (host.isNaN lat = false → host.isNaN lon = false →
      (locateClick host (some (.position lat lon)) s).log =
        s.log ++ [Effect.getCurrentPosition, Effect.flyTo lat lon 12,
          Effect.addLayer (Layer.marker
            { id := s.nextId, lat := lat, lon := lon, popupText := "You are here" }),
          Effect.openPopup s.nextId] ++ evicted s.markers ++
          [Effect.speak "Showing your current location"] ∧
      locateClick host (some (.position lat lon)) s =
        speak "Showing your current location"
          (addMarker lat lon "You are here"
            ((s.emit .getCurrentPosition).emit (.flyTo lat lon 12))) ∧
      (locateClick host (some (.position lat lon)) s).markers.getLast? =
        some { id := s.nextId, lat := lat, lon := lon, popupText := "You are here" } ∧
      (locateClick host (some (.position lat lon)) s).nextId = s.nextId + 1 ∧
      (locateClick host (some (.position lat lon)) s).routings = s.routings ∧
      (∀ t, Layer.tile t ∈ (locateClick host (some (.position lat lon)) s).layers ↔
        Layer.tile t ∈ s.layers) ∧
      (MarkersInv s →
        (locateClick host (some (.position lat lon)) s).markers =
          lastN 1 s.markers ++
            [{ id := s.nextId, lat := lat, lon := lon, popupText := "You are here" }] ∧
        markersOnMap (locateClick host (some (.position lat lon)) s) =
          (locateClick host (some (.position lat lon)) s).markers ∧
        (markersOnMap (locateClick host (some (.position lat lon)) s)).length ≤ 2 ∧
        MarkersInv (locateClick host (some (.position lat lon)) s))) ∧
    ((locateClick host (some .failure) s).log =
        s.log ++ [Effect.getCurrentPosition, Effect.alert "Unable to retrieve your location",
          Effect.speak "Unable to retrieve your location"] ∧
      MapUntouched s (locateClick host (some .failure) s)) := by
  refine ⟨?_, ?_, ?_⟩
  · simp [locateClick, speak, alert, Page.emit, MapUntouched]
  · intro hlat hlon
    have heq : locateClick host (some (.position lat lon)) s =
        speak "Showing your current location"
          (addMarker lat lon "You are here"
            ((s.emit .getCurrentPosition).emit (.flyTo lat lon 12))) := by
      simp [locateClick, mapFlyTo, toLatLng_ok host lat lon hlat hlon]
    obtain ⟨h1, h2, h3, h4, h5⟩ := addMarker_page lat lon "You are here"
      ((s.emit .getCurrentPosition).emit (.flyTo lat lon 12))
    have hlog := addMarker_log lat lon "You are here"
      ((s.emit .getCurrentPosition).emit (.flyTo lat lon 12))
    refine ⟨?_, heq, ?_, ?_, ?_, ?_, ?_⟩
    · rw [heq]
      simp only [speak, Page.emit] at hlog ⊢
      rw [hlog]
      simp [newMarker]
    · rw [heq]
      exact h3
    · rw [heq]
      exact h1
    · rw [heq]
      exact h2
    · rw [heq]
      exact h4
    · intro hinv
      rw [heq]
      obtain ⟨hm, hmap, hinv2⟩ := h5 hinv
      refine ⟨hm, hmap, ?_, hinv2⟩
      have hlen := hinv2.2.1
      have hmap2 : (markersOnMap (speak "Showing your current location"
          (addMarker lat lon "You are here"
            ((s.emit .getCurrentPosition).emit (.flyTo lat lon 12))))).length =
          (addMarker lat lon "You are here"
            ((s.emit .getCurrentPosition).emit (.flyTo lat lon 12))).markers.length :=
        congrArg List.length hmap
      omega
  · simp [locateClick, speak, alert, Page.emit, MapUntouched]

/-- An instance of C8: a position with number coordinates on the fresh page, which satisfies
the marker invariant, puts one marker with popup "You are here" on the map. -/
theorem locate_outcomes_witness :
    sampleHost.isNaN (some 48.8566) = false ∧ sampleHost.isNaN (some 2.3522) = false ∧
    MarkersInv (initial : Page (Option ℚ)) ∧
    markersOnMap (locateClick sampleHost (some (.position (some 48.8566) (some 2.3522))) initial) =
      [{ id := 0, lat := some 48.8566, lon := some 2.3522, popupText := "You are here" }] ∧
    (markersOnMap (locateClick sampleHost (some (.position (some 48.8566) (some 2.3522)))
      initial)).length ≤ 2 := by
  have h := (locate_outcomes sampleHost (some 48.8566) (some 2.3522) initial).2.1 rfl rfl
  have hinv : MarkersInv (initial : Page (Option ℚ)) := markersInv_initial
  have h7 := h.2.2.2.2.2.2 hinv
  exact ⟨rfl, rfl, hinv, h7.2.1.trans h7.1, h7.2.2.1⟩

theorem speak_mapAddLayer_tile (t : TileLayer) (message : String) (s : Page ν) :
    AddsTile t message s (speak message (mapAddLayer (Layer.tile t) s)) := by
  obtain ⟨h1, h2, h3, h4, h5, h6⟩ := mapAddLayer_tile t s
  refine ⟨?_, ?_, ?_, ?_, ?_, ?_⟩
  · simp [speak, Page.emit, h1]
  · simpa [speak, Page.emit] using h2
  · simpa [speak, Page.emit] using h3
  · simpa [speak, Page.emit] using h4
  · simpa [speak, Page.emit] using h5
  · simpa [speak, Page.emit] using h6

/-- Claim C9. The fixed-phrase commands: each makes exactly one map call followed by exactly
one utterance.  "zoom in" calls `zoomIn` and "zoom out" calls `zoomOut`.  For every current
zoom `z`, "extra zoom in" calls `setZoom (z + 2)` and "extra zoom out" calls
`setZoom (z - 2)`; "pan left" calls `panBy (-100, 0)` and "pan right" calls `panBy (100, 0)`.
These six change neither the layers nor the marker list.  Each of "satellite view",
"terrain view", "default view", "roads view" and "hybrid view" adds the layer that `baseMaps`
lists under that name: the layer is on the map afterwards, every layer that was on the map
still is, and the marker list is unchanged.  None of these commands issues a geocode
request. -/
theorem fixed_commands (z : Int) (s : Page ν) :
    ((runCommand "zoom in" z s).log = s.log ++ [Effect.zoomIn, Effect.speak "Zooming in"] ∧
      MapUntouched s (runCommand "zoom in" z s)) ∧
    ((runCommand "zoom out" z s).log = s.log ++ [Effect.zoomOut, Effect.speak "Zooming out"] ∧
      MapUntouched s (runCommand "zoom out" z s)) ∧
    ((runCommand "extra zoom in" z s).log =
        s.log ++ [Effect.setZoom (z + 2), Effect.speak "Extra zooming in"] ∧
      MapUntouched s (runCommand "extra zoom in" z s)) ∧
    ((runCommand "extra zoom out" z s).log =
        s.log ++ [Effect.setZoom (z - 2), Effect.speak "Extra zooming out"] ∧
      MapUntouched s (runCommand "extra zoom out" z s)) ∧
    ((runCommand "pan left" z s).log =
        s.log ++ [Effect.panBy (-100) 0, Effect.speak "Panning left"] ∧
      MapUntouched s (runCommand "pan left" z s)) ∧
    ((runCommand "pan right" z s).log =
        s.log ++ [Effect.panBy 100 0, Effect.speak "Panning right"] ∧
      MapUntouched s (runCommand "pan right" z s)) ∧
    (("Satellite", TileLayer.satelliteLayer) ∈ baseMaps ∧
      AddsTile .satelliteLayer "Switching to satellite view" s (runCommand "satellite view" z s)) ∧
    (("Terrain", TileLayer.terrainLayer) ∈ baseMaps ∧
      AddsTile .terrainLayer "Switching to terrain view" s (runCommand "terrain view" z s)) ∧
    (("Default", TileLayer.osmLayer) ∈ baseMaps ∧
      AddsTile .osmLayer "Switching to default view" s (runCommand "default view" z s)) ∧
    (("Roads", TileLayer.roadsLayer) ∈ baseMaps ∧
      AddsTile .roadsLayer "Switching to roads view" s (runCommand "roads view" z s)) ∧
    (("Hybrid", TileLayer.hybridLayer) ∈ baseMaps ∧
      AddsTile .hybridLayer "Switching to hybrid view" s (runCommand "hybrid view" z s)) := by
  refine ⟨?_, ?_, ?_, ?_, ?_, ?_, ?_, ?_, ?_, ?_, ?_⟩
  · simp [runCommand, commands, speak, Page.emit, MapUntouched]
  · simp [runCommand, commands, speak, Page.emit, MapUntouched]
  · simp [runCommand, commands, speak, Page.emit, MapUntouched]
  · simp [runCommand, commands, speak, Page.emit, MapUntouched]
  · simp [runCommand, commands, speak, Page.emit, MapUntouched]
  · simp [runCommand, commands, speak, Page.emit, MapUntouched]
  · exact ⟨by simp [baseMaps], speak_mapAddLayer_tile _ _ s⟩
  · exact ⟨by simp [baseMaps], speak_mapAddLayer_tile _ _ s⟩
  · exact ⟨by simp [baseMaps], speak_mapAddLayer_tile _ _ s⟩
  · exact ⟨by simp [baseMaps], speak_mapAddLayer_tile _ _ s⟩
  · exact ⟨by simp [baseMaps], speak_mapAddLayer_tile _ _ s⟩

end VoiceControl
